import Mathlib

/-!
Verification development for the sleeper-mcp-server repository.

The definitions below are a shallow embedding of the TypeScript source:
* `src/sleeper-api.ts` — the ephemeral in-memory query cache (`getCached`);
* `src/player-cache.ts` — the disk-persisted player snapshot cache
  (`getCacheStatus`, `loadPlayersFromCache`, `savePlayersToCache`);
* `src/tools.ts` — enrichment, grouping, aggregation and ranking
  (`enrichPlayers`, `groupPlayersByPosition`, `analyzeRoster`,
  `getMultiRosterAnalysis`, `getCrossLeagueMatchups`, win-percentage
  computations) and the waiver-target scoring pipeline (`getWaiverTargets`).

JavaScript numbers are modelled as exact rationals; the win-percentage
divisions, where IEEE special values matter, use an explicit `JsNum` type
with `nan` and infinities so that `0 / 0 = NaN` is represented faithfully.
Filesystem effects are modelled by explicit state passing over a record of
the canonical file, the temp file and the in-memory snapshot; fallible
steps (serialization, write, rename) take injected outcomes.
-/

namespace SleeperMCP

/-! ### JavaScript numbers for the win-percentage computations -/

/-- The result of a JavaScript floating-point computation, restricted to what
the win-percentage code can produce: a finite value (kept exact as a
rational) or one of the IEEE special values `NaN` / `±Infinity`. -/
inductive JsNum where
  | num (q : ℚ)
  | nan
  | inf
  | ninf
deriving DecidableEq, Repr

/-- JavaScript division `n / d`: finite quotient when `d ≠ 0`; `0 / 0` is
`NaN`; `n / 0` with `n ≠ 0` is a signed infinity. -/
def jsDiv (n d : ℚ) : JsNum :=
  if d = 0 then
    if n = 0 then JsNum.nan else if n > 0 then JsNum.inf else JsNum.ninf
  else
    JsNum.num (n / d)

/-- Multiplication of a JavaScript number by the positive literal `100`
(as used in `... * 100` in the percentage computations). -/
def jsMul100 (x : JsNum) : JsNum :=
  match x with
  | JsNum.num q => JsNum.num (q * 100)
  | JsNum.nan => JsNum.nan
  | JsNum.inf => JsNum.inf
  | JsNum.ninf => JsNum.ninf

/-- JavaScript `x || d` on numbers: `0` is falsy, so it is replaced by the
default `d`. Used in `formatAllRosters`:
`roster.settings.wins + roster.settings.losses || 1`. -/
def jsOrNum (x d : ℚ) : ℚ :=
  if x = 0 then d else x

/-- A user's win/loss record in one league (`EnrichedLeague.user_record` /
`SleeperRoster.settings`, the fields used by the win-percentage code). -/
structure UserRecord where
  wins : ℕ
  losses : ℕ
  ties : ℕ
deriving DecidableEq, Repr

/-- The sort key used by `discoverUserLeagues` (src/tools.ts lines 147-150):
`a.user_record.wins / (a.user_record.wins + a.user_record.losses)` —
no guard against a zero denominator. -/
def discoverSortWinPct (r : UserRecord) : JsNum :=
  jsDiv (r.wins : ℚ) ((r.wins : ℚ) + (r.losses : ℚ))

/-- The overall-record percentage in `discoverUserLeagues` (line 170):
`overallRecord.wins / (overallRecord.wins + overallRecord.losses) * 100` —
no guard against a zero denominator. -/
def discoverOverallWinPct (wins losses : ℕ) : JsNum :=
  jsMul100 (jsDiv (wins : ℚ) ((wins : ℚ) + (losses : ℚ)))

/-- The per-roster percentage in the ranking line of `formatAllRosters`
(line 853): `wins / (wins + losses || 1) * 100` — the `|| 1` guards the
zero denominator. -/
def formatAllRostersWinPct (wins losses : ℕ) : JsNum :=
  jsMul100 (jsDiv (wins : ℚ) (jsOrNum ((wins : ℚ) + (losses : ℚ)) 1))

/-! ### Player records and association-list maps -/

/-- A record of the reference dataset (`SleeperPlayer` in src/types.ts).
Fields are `Option`-valued because the defensive code in src/tools.ts
(`player.full_name || ...`, `player.position || 'FLEX'`, ...) treats every
field as possibly `null`/`undefined` at runtime. -/
structure SleeperPlayer where
  player_id : String
  full_name : Option String
  first_name : Option String
  last_name : Option String
  position : Option String
  team : Option String
  status : Option String
  fantasy_positions : Option (List String)
deriving DecidableEq, Repr

/-- Association-list lookup, modelling `Map.get` / object-property access. -/
def alookup {α : Type} (m : List (String × α)) (k : String) : Option α :=
  (m.find? (fun p => p.1 = k)).map Prod.snd

/-- `Map.set`: replace the value in place when the key is present, append
otherwise (JavaScript `Map` keeps first-insertion order). -/
def mapSet {α : Type} (m : List (String × α)) (k : String) (v : α) :
    List (String × α) :=
  if (alookup m k).isSome then
    m.map (fun p => if p.1 = k then (k, v) else p)
  else
    m ++ [(k, v)]

/-- `new Map()` followed by `set` for each entry in order, as in
`savePlayersToCache` / `loadPlayersFromCache`. -/
def buildMap {α : Type} (entries : List (String × α)) : List (String × α) :=
  entries.foldl (fun m kv => mapSet m kv.1 kv.2) []

/-- A full record set (the value of `JSON.parse` of the snapshot file or the
argument of `savePlayersToCache`); JavaScript object keys are unique. -/
abbrev PlayersRecord := List (String × SleeperPlayer)

/-! ### The disk-persisted player cache (src/player-cache.ts) -/

/-- Contents of a file as far as `JSON.parse` is concerned: either bytes
that parse back to a record set, or bytes that do not parse. -/
inductive FileData where
  | valid (records : PlayersRecord)
  | corrupt
deriving DecidableEq

/-- The canonical snapshot file: parseability of its contents plus the
filesystem modification time (milliseconds). -/
structure CacheFile where
  data : FileData
  mtime : ℕ
deriving DecidableEq

/-- State of the `PlayerCache` instance and its files: the canonical
`players.json` file, the `players.json.tmp` temp file, the in-memory
`playersCache`, and the current clock (`Date.now()`). -/
structure PCState where
  file : Option CacheFile
  temp : Option FileData
  mem : Option PlayersRecord
  now : ℕ
deriving DecidableEq

/-- `CACHE_DURATION = 24 * 60 * 60 * 1000` (24 hours in milliseconds). -/
def CACHE_TTL_MS : ℕ := 24 * 60 * 60 * 1000

/-- Result of `getCacheStatus` (fields used by `loadPlayersFromCache`;
`fileSizeMB` is not modelled). -/
structure PlayerCacheStatus where
  fileExists : Bool
  lastUpdated : Option ℕ
  isExpired : Bool
  playerCount : ℕ
deriving DecidableEq, Repr

/-- `getCacheStatus` (src/player-cache.ts lines 43-85): `stat` the file
(missing file → not exists, expired); compute expiry from `mtime`; when not
expired, read and parse the file to count records — a failed parse is
reported as `isExpired: true`. -/
def getCacheStatus (s : PCState) : PlayerCacheStatus :=
  match s.file with
  | none => ⟨false, none, true, 0⟩
  | some f =>
    if s.now - f.mtime > CACHE_TTL_MS then
      ⟨true, some f.mtime, true, 0⟩
    else
      match f.data with
      | FileData.valid records => ⟨true, some f.mtime, false, records.length⟩
      | FileData.corrupt => ⟨true, some f.mtime, true, 0⟩

/-- `loadPlayersFromCache` (src/player-cache.ts lines 90-125): return the
in-memory snapshot when held; otherwise consult `getCacheStatus` and return
`none` when the file is missing or reported expired; otherwise read and
parse the file, deleting it when the parse fails, and materialize the
parsed records into the in-memory map on success. Returns the result and
the post-state. -/
def loadPlayersFromCache (s : PCState) : Option PlayersRecord × PCState :=
  match s.mem with
  | some m => (some m, s)
  | none =>
    let st := getCacheStatus s
    if !st.fileExists || st.isExpired then (none, s)
    else
      match s.file with
      | some ⟨FileData.valid records, _⟩ =>
        let m := buildMap records
        (some m, { s with mem := some m })
      | some ⟨FileData.corrupt, _⟩ =>
        -- JSON.parse failed: delete the corrupted cache file
        (none, { s with file := none })
      | none => (none, s)

/-- Outcome of the `fs.writeFile` step of `savePlayersToCache`: the write
can succeed, leave bytes that do not parse back (caught by the verify
step), or throw. -/
inductive WriteOutcome where
  | success
  | corrupted
  | failed
deriving DecidableEq, Repr

/-- Injected outcomes for the fallible steps of `savePlayersToCache`:
`JSON.stringify`, `fs.writeFile` of the temp file, `fs.rename`, and the
best-effort `fs.unlink` cleanup in the catch block. -/
structure SaveEnv where
  stringifyOk : Bool
  write : WriteOutcome
  renameOk : Bool
  cleanupOk : Bool
deriving DecidableEq, Repr

/-- The catch-block cleanup: `fs.unlink` of the temp file, ignoring its own
errors (best-effort). -/
def cleanupTemp (env : SaveEnv) (s : PCState) : PCState :=
  if env.cleanupOk then { s with temp := none } else s

/-- Whether an `Except` result is an error. -/
def isErr {ε α : Type} : Except ε α → Bool
  | Except.error _ => true
  | Except.ok _ => false

/-- `savePlayersToCache` (src/player-cache.ts lines 130-183):
`JSON.stringify` the record set (validated by a re-parse); write the result
to `players.json.tmp`; re-read and re-parse the temp file to verify it;
`fs.rename` it over the canonical path; only then replace the in-memory
snapshot. Any thrown error is caught, the temp file is removed best-effort,
and the error is rethrown. -/
def savePlayersToCache (env : SaveEnv) (records : PlayersRecord)
    (s : PCState) : PCState × Except String Unit :=
  if !env.stringifyOk then
    (cleanupTemp env s, Except.error "Player data contains invalid JSON")
  else
    match env.write with
    | WriteOutcome.failed =>
      -- fs.writeFile threw; a partial temp file may remain on disk
      (cleanupTemp env { s with temp := some FileData.corrupt },
       Except.error "write failed")
    | WriteOutcome.corrupted =>
      -- the temp file was written but its bytes do not parse back,
      -- so the verification re-parse throws
      (cleanupTemp env { s with temp := some FileData.corrupt },
       Except.error "Cache file is corrupted after writing")
    | WriteOutcome.success =>
      -- the verification re-parse of the freshly written temp succeeds
      let s1 : PCState := { s with temp := some (FileData.valid records) }
      if env.renameOk then
        ({ s1 with
            file := some ⟨FileData.valid records, s1.now⟩,
            temp := none,
            mem := some (buildMap records) },
         Except.ok ())
      else
        (cleanupTemp env s1, Except.error "rename failed")

/-! ### The ephemeral in-memory query cache (src/sleeper-api.ts) -/

/-- `CacheEntry<T>` from src/types.ts: value, creation time, expiry time. -/
structure CacheEntry (T : Type) where
  data : T
  timestamp : ℕ
  expires_at : ℕ
deriving DecidableEq, Repr

/-- The `cache : Map<string, CacheEntry<any>>` of the `SleeperAPI` class. -/
abbrev QueryCache (T : Type) := List (String × CacheEntry T)

/-- `getCached` (src/sleeper-api.ts lines 52-67): if a stored entry exists
and `Date.now() < cached.expires_at`, return its data without invoking the
fetcher; otherwise invoke the fetcher and store the result with
`expires_at = now + cacheDuration`. The fetcher is modelled by the value it
would produce; the returned `Bool` records whether it was invoked. -/
def getCached {T : Type} (cacheDuration : ℕ) (c : QueryCache T) (key : String)
    (now : ℕ) (fetched : T) : T × QueryCache T × Bool :=
  match alookup c key with
  | some e =>
    if now < e.expires_at then (e.data, c, false)
    else (fetched, mapSet c key ⟨fetched, now, now + cacheDuration⟩, true)
  | none => (fetched, mapSet c key ⟨fetched, now, now + cacheDuration⟩, true)

/-! ### Roster enrichment (src/tools.ts `enrichPlayers`) -/

/-- `EnrichedRosterPlayer` from src/types.ts. -/
structure EnrichedRosterPlayer where
  player_id : String
  full_name : String
  position : String
  team : String
  status : String
  fantasy_positions : List String
  is_starter : Bool
deriving DecidableEq, Repr

/-- JavaScript `s || d` on an optional string: `null`/`undefined` and the
empty string are falsy. -/
def jsStrOr (o : Option String) (d : String) : String :=
  match o with
  | some s => if s = "" then d else s
  | none => d

/-- The display-name fallback of `enrichPlayers` (line 400):
`player.full_name || (first + ' ' + last).trim() || 'Unknown'`. -/
def fullNameOf (p : SleeperPlayer) : String :=
  let fallback := ((p.first_name.getD "") ++ " " ++ (p.last_name.getD "")).trim
  jsStrOr p.full_name (if fallback = "" then "Unknown" else fallback)

/-- The placeholder entry `enrichPlayers` produces for a roster id absent
from the snapshot (lines 386-396): synthetic id-derived display name,
position `FLEX` so the entry is not filtered out, `Inactive` status. -/
def placeholderPlayer (pid : String) (starterIds : List String) :
    EnrichedRosterPlayer :=
  { player_id := pid
    full_name := "Unknown Player (" ++ pid ++ ")"
    position := "FLEX"
    team := "N/A"
    status := "Inactive"
    fantasy_positions := ["FLEX"]
    is_starter := starterIds.contains pid }

/-- The enriched entry for a roster id resolved in the snapshot (lines
398-406), with the `||` fallbacks of the source. -/
def resolvedPlayer (p : SleeperPlayer) (pid : String)
    (starterIds : List String) : EnrichedRosterPlayer :=
  { player_id := p.player_id
    full_name := fullNameOf p
    position := jsStrOr p.position "FLEX"
    team := jsStrOr p.team "N/A"
    status := jsStrOr p.status "Inactive"
    fantasy_positions := p.fantasy_positions.getD ["FLEX"]
    is_starter := starterIds.contains pid }

/-- `enrichPlayers` (src/tools.ts lines 372-410): map each roster id to its
resolved entry, or to the placeholder when the id is absent from the
snapshot map returned by `getPlayersByIds`. -/
def enrichPlayers (playersData : List (String × SleeperPlayer))
    (playerIds starterIds : List String) : List EnrichedRosterPlayer :=
  playerIds.map (fun pid =>
    match alookup playersData pid with
    | none => placeholderPlayer pid starterIds
    | some p => resolvedPlayer p pid starterIds)

/-! ### Positional grouping and depth (src/tools.ts
`groupPlayersByPosition`) -/

/-- The six fixed positions analyzed by `groupPlayersByPosition`. -/
def STANDARD_POSITIONS : List String := ["QB", "RB", "WR", "TE", "K", "DEF"]

/-- Membership test of the grouping filter (line 420-422):
`player.position === position || player.fantasy_positions.includes(position)`. -/
def matchesPosition (pos : String) (p : EnrichedRosterPlayer) : Bool :=
  p.position = pos || p.fantasy_positions.contains pos

/-- `Math.round` on an exact rational: round half toward positive
infinity. -/
def jsRound (q : ℚ) : ℤ := ⌊q + 1 / 2⌋

/-- The per-position depth multiplier (lines 433-437): `0.8` for QB, `1.2`
for RB and WR, `1` otherwise. -/
def positionMultiplier (pos : String) : ℚ :=
  if pos = "QB" then 4 / 5
  else if pos = "RB" ∨ pos = "WR" then 6 / 5
  else 1

/-- The strength tier (lines 440-448): QB, K and DEF are `Strong` at `≥2`
players, `Average` at `≥1`, else `Weak`; RB, WR and TE are `Strong` at
`≥4`, `Average` at `≥2`, else `Weak`. -/
def strengthFor (pos : String) (count : ℕ) : String :=
  if pos = "QB" ∨ pos = "K" ∨ pos = "DEF" then
    if count ≥ 2 then "Strong" else if count ≥ 1 then "Average" else "Weak"
  else
    if count ≥ 4 then "Strong" else if count ≥ 2 then "Average" else "Weak"

/-- `PositionDepth` from src/types.ts. -/
structure PositionDepth where
  position : String
  starters : List EnrichedRosterPlayer
  bench : List EnrichedRosterPlayer
  total_count : ℕ
  starter_count : ℕ
  bench_count : ℕ
  strength : String
  depth_score : ℤ
deriving DecidableEq, Repr

/-- The body of the `positions.map` in `groupPlayersByPosition` (lines
419-460): filter the roster to one position, split into starters and
bench, compute `starters*3 + bench*1` scaled by the position multiplier
and rounded, and the strength tier. -/
def analyzePosition (players : List EnrichedRosterPlayer) (pos : String) :
    PositionDepth :=
  let positionPlayers := players.filter (matchesPosition pos)
  let starters := positionPlayers.filter (fun p => p.is_starter)
  let bench := positionPlayers.filter (fun p => !p.is_starter)
  let base : ℚ := starters.length * 3 + bench.length * 1
  { position := pos
    starters := starters
    bench := bench
    total_count := positionPlayers.length
    starter_count := starters.length
    bench_count := bench.length
    strength := strengthFor pos positionPlayers.length
    depth_score := jsRound (base * positionMultiplier pos) }

/-- `groupPlayersByPosition` (src/tools.ts lines 415-461); the
`rosterPositions` argument is unused by the source as well. -/
def groupPlayersByPosition (players : List EnrichedRosterPlayer)
    (rosterPositions : List String) : List PositionDepth :=
  STANDARD_POSITIONS.map (analyzePosition players)

/-! ### Leagues, rosters and per-league analysis (src/tools.ts) -/

/-- The cumulative counters of `SleeperRoster.settings` (src/types.ts). -/
structure TeamRecord where
  wins : ℕ
  losses : ℕ
  ties : ℕ
  fpts : ℚ
  fpts_against : ℚ
deriving DecidableEq, Repr

/-- `SleeperRoster` (src/types.ts); `owner_id` is nullable (unowned slots)
and the `players` / `starters` arrays may be absent, as the source guards
with `|| []`. -/
structure SleeperRoster where
  roster_id : ℕ
  owner_id : Option String
  players : Option (List String)
  starters : Option (List String)
  settings : TeamRecord
deriving DecidableEq, Repr

/-- `SleeperLeague` (src/types.ts), the fields the analysed operations
read. -/
structure SleeperLeague where
  league_id : String
  name : String
  status : String
  roster_positions : List String
deriving DecidableEq, Repr

/-- `RosterAnalysis` (src/types.ts). -/
structure RosterAnalysis where
  league_id : String
  league_name : String
  roster_id : ℕ
  team_record : TeamRecord
  positions : List PositionDepth
  total_players : ℕ
  starters : List EnrichedRosterPlayer
  bench : List EnrichedRosterPlayer
  strengths : List String
  weaknesses : List String
  priority_positions : List String
  overall_strength : String
deriving DecidableEq, Repr

/-- `Array.from(new Set([...a, ...b]))`: concatenation deduplicated keeping
first occurrences. -/
def dedupFirst (l : List String) : List String :=
  l.foldl (fun acc x => if acc.contains x then acc else acc ++ [x]) []

/-- The overall-strength rule shared by `analyzeRoster` and
`formatAllRosters` (lines 495-502): `Strong` when at least four positions
are `Strong` and at most one is `Weak`; `Weak` when at least three are
`Weak`; otherwise `Average`. -/
def overallStrengthOf (positions : List PositionDepth) : String :=
  let strongPositions := (positions.filter (fun p => p.strength = "Strong")).length
  let weakPositions := (positions.filter (fun p => p.strength = "Weak")).length
  if strongPositions ≥ 4 ∧ weakPositions ≤ 1 then "Strong"
  else if weakPositions ≥ 3 then "Weak"
  else "Average"

/-- `analyzeRoster` (src/tools.ts lines 466-524). -/
def analyzeRoster (league : SleeperLeague) (roster : SleeperRoster)
    (enrichedPlayers : List EnrichedRosterPlayer) : RosterAnalysis :=
  let positions := groupPlayersByPosition enrichedPlayers league.roster_positions
  let starters := enrichedPlayers.filter (fun p => p.is_starter)
  let bench := enrichedPlayers.filter (fun p => !p.is_starter)
  let strong := positions.filter (fun p => p.strength = "Strong")
  let weak := positions.filter (fun p => p.strength = "Weak")
  { league_id := league.league_id
    league_name := league.name
    roster_id := roster.roster_id
    team_record := roster.settings
    positions := positions
    total_players := enrichedPlayers.length
    starters := starters
    bench := bench
    strengths := strong.map (fun p =>
      p.position ++ " (" ++ toString p.total_count ++ " players)")
    weaknesses := weak.map (fun p =>
      p.position ++ " (" ++ toString p.total_count ++ " players)")
    priority_positions := weak.map (fun p => p.position)
    overall_strength := overallStrengthOf positions }

/-- The per-league inputs of the `getMultiRosterAnalysis` fan-out: the
league, the outcome of its `getLeagueRosters` fetch, whether the
`getPlayers()` call inside `enrichPlayers` succeeds, and the snapshot map
`getPlayersByIds` reads from. -/
structure LeagueFetchResult where
  league : SleeperLeague
  rosters : Except String (List SleeperRoster)
  playersFetchOk : Bool
  playersData : List (String × SleeperPlayer)
deriving Repr

/-- The per-league body of `getMultiRosterAnalysis` (src/tools.ts lines
650-668): any thrown error — a failed rosters fetch or a failed
`enrichPlayers` — is caught and converted to `null`; a league without a
roster owned by the user is also `null`. -/
def analyzeLeagueForUser (userId : String) (inp : LeagueFetchResult) :
    Option RosterAnalysis :=
  match inp.rosters with
  | Except.error _ => none
  | Except.ok rosters =>
    match rosters.find? (fun r => r.owner_id = some userId) with
    | none => none
    | some userRoster =>
      if !inp.playersFetchOk then none
      else
        let allPlayerIds :=
          dedupFirst ((userRoster.players.getD []) ++ (userRoster.starters.getD []))
        let enriched :=
          enrichPlayers inp.playersData allPlayerIds (userRoster.starters.getD [])
        some (analyzeRoster inp.league userRoster enriched)

/-- The aggregation of `getMultiRosterAnalysis` (lines 671-672): await all
per-league results and keep the non-null ones. -/
def getMultiRosterAnalysisCore (userId : String)
    (inputs : List LeagueFetchResult) : List RosterAnalysis :=
  inputs.filterMap (analyzeLeagueForUser userId)

/-! ### Cross-league matchup classification (src/tools.ts
`getCrossLeagueMatchups`) -/

/-- `SleeperMatchup` (src/types.ts), the fields the matchup analysis
reads. -/
structure SleeperMatchup where
  matchup_id : ℕ
  roster_id : ℕ
  points : ℚ
deriving DecidableEq, Repr

/-- `CrossLeagueMatchup` (src/types.ts). -/
structure CrossLeagueMatchup where
  league_name : String
  league_id : String
  matchup_id : ℕ
  user_roster_id : ℕ
  user_points : ℚ
  opponent_points : ℚ
  projected_difference : ℚ
  competitiveness : String
  priority : ℕ
  opponent_roster_id : ℕ
deriving DecidableEq, Repr

/-- The competitiveness classification (src/tools.ts lines 269-282):
absolute point difference `< 10` is `high` priority 1, `< 20` is `medium`
priority 2, otherwise `low` priority 3. -/
def classifyCompetitiveness (pointDifference : ℚ) : String × ℕ :=
  if pointDifference < 10 then ("high", 1)
  else if pointDifference < 20 then ("medium", 2)
  else ("low", 3)

/-- The per-league inputs of the `getCrossLeagueMatchups` fan-out: the
league and the outcomes of its `getMatchups` and `getLeagueRosters`
fetches (issued under one `Promise.all`, so either failure fails both). -/
structure LeagueMatchupFetch where
  league : SleeperLeague
  matchups : Except String (List SleeperMatchup)
  rosters : Except String (List SleeperRoster)
deriving Repr

/-- The per-league body of `getCrossLeagueMatchups` (src/tools.ts lines
239-301): fetch failures are caught to `null`; a league without the user's
roster, without the user's matchup, or without an opponent sharing the
matchup id (bye week) is `null`; otherwise classify the absolute point
difference. -/
def processLeagueMatchup (userId : String) (inp : LeagueMatchupFetch) :
    Option CrossLeagueMatchup :=
  match inp.matchups, inp.rosters with
  | Except.ok matchups, Except.ok rosters =>
    match rosters.find? (fun r => r.owner_id = some userId) with
    | none => none
    | some userRoster =>
      match matchups.find? (fun m => m.roster_id = userRoster.roster_id) with
      | none => none
      | some userMatchup =>
        match matchups.find? (fun m =>
            m.matchup_id = userMatchup.matchup_id ∧
            m.roster_id ≠ userMatchup.roster_id) with
        | none => none
        | some opponentMatchup =>
          let d := |userMatchup.points - opponentMatchup.points|
          let cls := classifyCompetitiveness d
          some
            { league_name := inp.league.name
              league_id := inp.league.league_id
              matchup_id := userMatchup.matchup_id
              user_roster_id := userMatchup.roster_id
              user_points := userMatchup.points
              opponent_points := opponentMatchup.points
              projected_difference := userMatchup.points - opponentMatchup.points
              competitiveness := cls.1
              priority := cls.2
              opponent_roster_id := opponentMatchup.roster_id }
  | _, _ => none

/-- `validMatchups.sort((a, b) => a.priority - b.priority)` — ECMAScript
`Array.prototype.sort` is stable, so the result is the unique stable sort
by this comparator; insertion sort with `≤` on the key is that stable
sort. -/
def stableSortByPriority (l : List CrossLeagueMatchup) :
    List CrossLeagueMatchup :=
  l.insertionSort (fun a b => a.priority ≤ b.priority)

/-- The aggregation of `getCrossLeagueMatchups` (lines 304-308): await all
per-league results, drop the nulls, sort ascending by priority. -/
def getCrossLeagueMatchupsCore (userId : String)
    (inputs : List LeagueMatchupFetch) : List CrossLeagueMatchup :=
  stableSortByPriority (inputs.filterMap (processLeagueMatchup userId))

/-! ### Waiver targets (`getWaiverTargets`, src/unnamed tools source) -/

/-- `WaiverPlayerTarget`: the fields built at lines 1310-1322 of the
waiver-targets source. `position`, `team` and `status` are copied from the
(possibly null) player fields without a fallback. -/
structure WaiverPlayerTarget where
  player_id : String
  full_name : String
  position : Option String
  team : Option String
  status : Option String
  fantasy_positions : List String
  available_in_leagues : List String
  league_count : ℕ
  priority_score : ℤ
  recommended_for : List String
  trending_add_count : Option ℕ
deriving DecidableEq, Repr

/-- Per-league context of the waiver analysis (built at lines 1169-1191):
the league, the user's roster in it (if any), and the set of player ids
rostered by anyone in the league. -/
structure LeagueRosterData where
  league : SleeperLeague
  userRoster : Option SleeperRoster
  rosteredPlayerIds : List String
deriving Repr

/-- A JavaScript template interpolation of a possibly `undefined` string
(`` `${player.first_name} ${player.last_name}` `` has no fallback). -/
def jsTemplateStr (o : Option String) : String := o.getD "undefined"

/-- The position-overlap test used to count the user's depth at the
candidate's position (lines 1268-1270):
`p.position === player.position || p.fantasy_positions?.includes(player.position)`. -/
def samePositionAs (candidate q : SleeperPlayer) : Bool :=
  q.position = candidate.position ||
    (match candidate.position with
     | some pos => (q.fantasy_positions.getD []).contains pos
     | none => false)

/-- The `validLeagueData.forEach` accumulation (lines 1255-1278): for every
league where the candidate is unrostered, record the league name as
available, and additionally as recommended when the user's roster there
holds fewer than 3 players at the candidate's position. -/
def availableAndRecommended (allPlayers : List (String × SleeperPlayer))
    (leagueData : List LeagueRosterData) (candidate : SleeperPlayer) :
    List String × List String :=
  leagueData.foldl
    (fun acc ld =>
      if ld.rosteredPlayerIds.contains candidate.player_id then acc
      else
        let avail := acc.1 ++ [ld.league.name]
        match ld.userRoster with
        | none => (avail, acc.2)
        | some userRoster =>
          let userPlayerIds := userRoster.players.getD []
          let enriched := userPlayerIds.filterMap (alookup allPlayers)
          let positionPlayers := enriched.filter (samePositionAs candidate)
          if positionPlayers.length < 3 then (avail, acc.2 ++ [ld.league.name])
          else (avail, acc.2))
    ([], [])

/-- The sequential `priorityScore` accumulation (lines 1280-1308): trending
adds times 10 (only added when positive), availability count times 10,
roster-need count times 15, 5 for fully `Active` status, and the position
scarcity bonus (+3 for RB/WR, +5 for TE). -/
def priorityScoreOf (trendingCount availCount recommendedCount : ℕ)
    (status position : Option String) : ℤ :=
  let s0 : ℤ := 0
  let s1 := if trendingCount > 0 then s0 + trendingCount * 10 else s0
  let s2 := s1 + availCount * 10
  let s3 := s2 + recommendedCount * 15
  let s4 := if status = some "Active" then s3 + 5 else s3
  if position = some "RB" ∨ position = some "WR" then s4 + 3
  else if position = some "TE" then s4 + 5
  else s4

/-- The scarcity bonus written as the spec states it, for comparison with
the accumulated score. -/
def scarcityBonus (position : Option String) : ℤ :=
  if position = some "RB" ∨ position = some "WR" then 3
  else if position = some "TE" then 5
  else 0

/-- The body of the `relevantPlayers.map` (lines 1253-1323), producing one
`WaiverPlayerTarget` per candidate. -/
def mkWaiverTarget (allPlayers : List (String × SleeperPlayer))
    (trendingMap : List (String × ℕ)) (leagueData : List LeagueRosterData)
    (p : SleeperPlayer) : WaiverPlayerTarget :=
  let ar := availableAndRecommended allPlayers leagueData p
  let trendingCount := (alookup trendingMap p.player_id).getD 0
  { player_id := p.player_id
    full_name := jsStrOr p.full_name
      (jsTemplateStr p.first_name ++ " " ++ jsTemplateStr p.last_name)
    position := p.position
    team := p.team
    status := p.status
    fantasy_positions :=
      p.fantasy_positions.getD
        (match p.position with | some x => [x] | none => [])
    available_in_leagues := ar.1
    league_count := ar.1.length
    priority_score :=
      priorityScoreOf trendingCount ar.1.length ar.2.length p.status p.position
    recommended_for := ar.2
    trending_add_count := if trendingCount > 0 then some trendingCount else none }

/-- The candidate list after the map and the availability filter
(line 1324): candidates unrostered nowhere are excluded entirely. -/
def waiverTargets (allPlayers : List (String × SleeperPlayer))
    (trendingMap : List (String × ℕ)) (leagueData : List LeagueRosterData)
    (pool : List SleeperPlayer) : List WaiverPlayerTarget :=
  (pool.map (mkWaiverTarget allPlayers trendingMap leagueData)).filter
    (fun t => t.available_in_leagues.length > 0)

/-- `target.priority_score` descending, as a `Prop` relation for the stable
sort `sort((a, b) => b.priority_score - a.priority_score)`. -/
def scoreDesc (a b : WaiverPlayerTarget) : Prop :=
  b.priority_score ≤ a.priority_score

instance : DecidableRel scoreDesc := fun a b =>
  inferInstanceAs (Decidable (b.priority_score ≤ a.priority_score))

instance : IsTotal WaiverPlayerTarget scoreDesc :=
  ⟨fun a b => (le_total b.priority_score a.priority_score)⟩

instance : IsTrans WaiverPlayerTarget scoreDesc :=
  ⟨fun _ _ _ h1 h2 => le_trans h2 h1⟩

/-- One entry of `positionGroups` (lines 1326-1333): the targets matching
the position, sorted descending by score, truncated to the limit. -/
def positionGroup (targets : List WaiverPlayerTarget) (pos : String)
    (limit : ℕ) : List WaiverPlayerTarget :=
  ((targets.filter (fun t =>
      t.position = some pos || t.fantasy_positions.contains pos)).insertionSort
    scoreDesc).take limit

/-- The default of the `limit` parameter of `getWaiverTargets`
(`limit: number = 5`). -/
def WAIVER_DEFAULT_LIMIT : ℕ := 5

/-! ### Helper lemmas -/

lemma alookup_eq_none_of_not_mem {α : Type} (m : List (String × α))
    (k : String) (h : k ∉ m.map Prod.fst) : alookup m k = none := by
  simp only [alookup, Option.map_eq_none', List.find?_eq_none]
  intro p hp
  simp only [decide_eq_true_eq]
  intro hk
  exact h (List.mem_map.mpr ⟨p, hp, hk⟩)

lemma mapSet_append_of_fresh {α : Type} (m : List (String × α)) (k : String)
    (v : α) (h : k ∉ m.map Prod.fst) : mapSet m k v = m ++ [(k, v)] := by
  simp [mapSet, alookup_eq_none_of_not_mem m k h]

lemma buildMap_go {α : Type} (entries : List (String × α)) :
    ∀ acc : List (String × α), ((acc ++ entries).map Prod.fst).Nodup →
      entries.foldl (fun m kv => mapSet m kv.1 kv.2) acc = acc ++ entries := by
  induction entries with
  | nil => intro acc _; simp
  | cons kv rest ih =>
    intro acc h
    have hfresh : kv.1 ∉ acc.map Prod.fst := by
      simp only [List.map_append, List.nodup_append] at h
      intro hm
      exact h.2.2 hm (by simp)
    have hstep : mapSet acc kv.1 kv.2 = acc ++ [kv] :=
      mapSet_append_of_fresh acc kv.1 kv.2 hfresh
    have hnodup : (((acc ++ [kv]) ++ rest).map Prod.fst).Nodup := by
      simpa [List.append_assoc] using h
    calc (kv :: rest).foldl (fun m p => mapSet m p.1 p.2) acc
        = rest.foldl (fun m p => mapSet m p.1 p.2) (acc ++ [kv]) := by
          simp [List.foldl_cons, hstep]
      _ = (acc ++ [kv]) ++ rest := ih (acc ++ [kv]) hnodup
      _ = acc ++ kv :: rest := by simp

lemma buildMap_of_nodup {α : Type} (entries : List (String × α))
    (h : (entries.map Prod.fst).Nodup) : buildMap entries = entries := by
  simpa using buildMap_go entries [] (by simpa using h)

/-! ### C1: win-percentage at a zero record -/

/-- Claim C1: the claim states that every win-percentage computation — the league
sort key and the overall-record percentage in `discoverUserLeagues`, and
the ranking line in `formatAllRosters` — yields a defined sentinel such as
`0` on a `wins = losses = 0` record, never `NaN`. On the code this fails:
only `formatAllRosters` guards its denominator with `|| 1`; both
computations in `discoverUserLeagues` evaluate `0 / 0`, which is `NaN`.
This theorem evaluates all three computations at the failing record. -/
theorem winPct_zero_record_yields_nan :
    discoverSortWinPct ⟨0, 0, 0⟩ = JsNum.nan ∧
    discoverOverallWinPct 0 0 = JsNum.nan ∧
    formatAllRostersWinPct 0 0 = JsNum.num 0 := by
  refine ⟨?_, ?_, ?_⟩ <;>
    norm_num [discoverSortWinPct, discoverOverallWinPct,
      formatAllRostersWinPct, jsDiv, jsMul100, jsOrNum]

/-! ### C2: atomicity of `savePlayersToCache` -/

/-- Claim C2: if `savePlayersToCache` fails at any step before the final rename
(serialization, temp-file write, or verification re-parse of the temp
file), the canonical file and the in-memory snapshot are unchanged, the
stray temp file is removed when the best-effort cleanup succeeds, and an
error is propagated; the in-memory snapshot changes only when the rename
(and every step before it) succeeded, in which case the call returned
success. -/
theorem savePlayersToCache_atomicity (env : SaveEnv)
    (records : PlayersRecord) (s : PCState) :
    (env.stringifyOk = false ∨ env.write = WriteOutcome.failed ∨
        env.write = WriteOutcome.corrupted →
      isErr (savePlayersToCache env records s).2 = true ∧
      (savePlayersToCache env records s).1.file = s.file ∧
      (savePlayersToCache env records s).1.mem = s.mem ∧
      (env.cleanupOk = true → (savePlayersToCache env records s).1.temp = none)) ∧
    ((savePlayersToCache env records s).1.mem ≠ s.mem →
      env.stringifyOk = true ∧ env.write = WriteOutcome.success ∧
      env.renameOk = true ∧
      (savePlayersToCache env records s).2 = Except.ok () ∧
      (savePlayersToCache env records s).1.mem = some (buildMap records)) := by
  obtain ⟨so, w, ro, co⟩ := env
  cases so <;> cases w <;> cases ro <;> cases co <;>
    simp [savePlayersToCache, cleanupTemp, isErr]

/-- Witness for C2: a concrete save whose temp-file verification fails
leaves the canonical file and in-memory snapshot of the prior state in
place, removes the temp file, and reports an error. -/
theorem savePlayersToCache_atomicity_witness :
    isErr (savePlayersToCache ⟨true, WriteOutcome.corrupted, true, true⟩ []
      ⟨some ⟨FileData.valid [], 3⟩, none, none, 10⟩).2 = true ∧
    (savePlayersToCache ⟨true, WriteOutcome.corrupted, true, true⟩ []
      ⟨some ⟨FileData.valid [], 3⟩, none, none, 10⟩).1.file =
        some ⟨FileData.valid [], 3⟩ ∧
    (savePlayersToCache ⟨true, WriteOutcome.corrupted, true, true⟩ []
      ⟨some ⟨FileData.valid [], 3⟩, none, none, 10⟩).1.mem = none ∧
    (savePlayersToCache ⟨true, WriteOutcome.corrupted, true, true⟩ []
      ⟨some ⟨FileData.valid [], 3⟩, none, none, 10⟩).1.temp = none := by
  have h := (savePlayersToCache_atomicity ⟨true, WriteOutcome.corrupted, true, true⟩
    [] ⟨some ⟨FileData.valid [], 3⟩, none, none, 10⟩).1 (Or.inr (Or.inr rfl))
  exact ⟨h.1, h.2.1, h.2.2.1, h.2.2.2 rfl⟩

/-! ### C3: save/load round-trip -/

/-- Claim C3: a successful `savePlayersToCache` of a record set followed by
`loadPlayersFromCache` returns exactly that record set (JavaScript object
keys are unique, hence the `Nodup` hypothesis on the keys). -/
theorem save_then_load_roundtrip (env : SaveEnv) (records : PlayersRecord)
    (s : PCState) (hok : (savePlayersToCache env records s).2 = Except.ok ())
    (hnd : (records.map Prod.fst).Nodup) :
    (loadPlayersFromCache (savePlayersToCache env records s).1).1 =
      some records := by
  obtain ⟨so, w, ro, co⟩ := env
  cases so <;> cases w <;> cases ro <;> cases co <;>
    simp [savePlayersToCache, cleanupTemp] at hok ⊢ <;>
    simp [loadPlayersFromCache, buildMap_of_nodup records hnd]

/-- Witness for C3: saving a one-record set and loading returns it. -/
theorem save_then_load_roundtrip_witness :
    (loadPlayersFromCache (savePlayersToCache
        ⟨true, WriteOutcome.success, true, true⟩
        [("4046", ⟨"4046", some "Patrick Mahomes", some "Patrick",
          some "Mahomes", some "QB", some "KC", some "Active", some ["QB"]⟩)]
        ⟨none, none, none, 7⟩).1).1 =
      some [("4046", ⟨"4046", some "Patrick Mahomes", some "Patrick",
        some "Mahomes", some "QB", some "KC", some "Active", some ["QB"]⟩)] :=
  save_then_load_roundtrip ⟨true, WriteOutcome.success, true, true⟩ _ _
    rfl (by simp)

/-! ### C9: `loadPlayersFromCache` behaviour -/

/-- Counterexample for C9: the claim states that a failed parse of the
on-disk file deletes the corrupt file before returning absent. On a state
with no in-memory snapshot and a fresh but unparseable file, the load
returns absent yet leaves the corrupt file exactly in place: the state is
unchanged, so no deletion happened. -/
theorem load_corrupt_file_not_deleted :
    (loadPlayersFromCache ⟨some ⟨FileData.corrupt, 0⟩, none, none, 0⟩).1 =
      none ∧
    (loadPlayersFromCache ⟨some ⟨FileData.corrupt, 0⟩, none, none, 0⟩).2.file =
      some ⟨FileData.corrupt, 0⟩ :=
  ⟨rfl, rfl⟩

/-- Claim C9 (amended): `loadPlayersFromCache` returns the in-memory snapshot
whenever one is held; otherwise it returns absent whenever the cache file
is missing, older than the 24-hour TTL, or unparseable — but an
unparseable file is not deleted: `getCacheStatus` already reports a
corrupt file as expired, so the load returns absent (with the file left
in place) before reaching its own delete branch. -/
theorem loadPlayersFromCache_behavior (s : PCState) :
    (∀ m, s.mem = some m → loadPlayersFromCache s = (some m, s)) ∧
    (s.mem = none → s.file = none → loadPlayersFromCache s = (none, s)) ∧
    (∀ f, s.mem = none → s.file = some f → s.now - f.mtime > CACHE_TTL_MS →
      loadPlayersFromCache s = (none, s)) ∧
    (∀ t, s.mem = none → s.file = some ⟨FileData.corrupt, t⟩ →
      loadPlayersFromCache s = (none, s)) := by
  obtain ⟨file, temp, mem, now⟩ := s
  refine ⟨?_, ?_, ?_, ?_⟩
  · intro m hm
    simp only at hm
    subst hm
    rfl
  · intro hm hf
    simp only at hm hf
    subst hm; subst hf
    rfl
  · intro f hm hf hexp
    simp only at hm hf
    subst hm; subst hf
    simp [loadPlayersFromCache, getCacheStatus, hexp]
  · intro t hm hf
    simp only at hm hf
    subst hm; subst hf
    by_cases hexp : now - t > CACHE_TTL_MS <;>
      simp [loadPlayersFromCache, getCacheStatus, hexp]

/-- Witness for C9 (amended): a held in-memory snapshot is returned as-is,
and a fresh corrupt file yields absent with the state unchanged. -/
theorem loadPlayersFromCache_behavior_witness :
    loadPlayersFromCache ⟨none, none, some [], 2⟩ =
      (some [], ⟨none, none, some [], 2⟩) ∧
    loadPlayersFromCache ⟨some ⟨FileData.corrupt, 5⟩, none, none, 6⟩ =
      (none, ⟨some ⟨FileData.corrupt, 5⟩, none, none, 6⟩) :=
  ⟨(loadPlayersFromCache_behavior ⟨none, none, some [], 2⟩).1 [] rfl,
   (loadPlayersFromCache_behavior
     ⟨some ⟨FileData.corrupt, 5⟩, none, none, 6⟩).2.2.2 5 rfl rfl⟩

/-! ### C6: the ephemeral query cache TTL -/

/-- Claim C6: for a positive TTL `t`, a `getCached` call for a key whose stored
entry was created less than `t` ago (entries are stored with
`expires_at = timestamp + t`) returns the stored value without invoking
the fetcher and leaves the cache unchanged; a call made once the elapsed
time reaches `t` (`now ≥ expires_at`) invokes the fetcher and stores the
fresh value with `expires_at = now + t`. -/
theorem getCached_ttl_behavior {T : Type} (t : ℕ) (ht : 0 < t)
    (c : QueryCache T) (key : String) (now : ℕ) (fetched : T) :
    (∀ e, alookup c key = some e → e.expires_at = e.timestamp + t →
      e.timestamp ≤ now → now - e.timestamp < t →
      getCached t c key now fetched = (e.data, c, false)) ∧
    (∀ e, alookup c key = some e → e.expires_at ≤ now →
      getCached t c key now fetched =
        (fetched, mapSet c key ⟨fetched, now, now + t⟩, true)) := by
  constructor
  · intro e he hexp hle hlt
    have hnow : now < e.expires_at := by omega
    simp [getCached, he, hnow]
  · intro e he hge
    have hnow : ¬ now < e.expires_at := by omega
    simp [getCached, he, hnow]

/-- Witness for C6: a hit strictly inside the window returns the cached
value without fetching; at exactly the expiry instant the fetcher runs and
the entry is refreshed. -/
theorem getCached_ttl_behavior_witness :
    getCached 5 [("k", (⟨42, 0, 5⟩ : CacheEntry ℕ))] "k" 4 99 =
      (42, [("k", ⟨42, 0, 5⟩)], false) ∧
    getCached 5 [("k", (⟨42, 0, 5⟩ : CacheEntry ℕ))] "k" 5 99 =
      (99, mapSet [("k", ⟨42, 0, 5⟩)] "k" ⟨99, 5, 10⟩, true) :=
  ⟨(getCached_ttl_behavior 5 (by decide) [("k", ⟨42, 0, 5⟩)] "k" 4 99).1
      ⟨42, 0, 5⟩ rfl rfl (by decide) (by decide),
   (getCached_ttl_behavior 5 (by decide) [("k", ⟨42, 0, 5⟩)] "k" 5 99).2
      ⟨42, 0, 5⟩ rfl (by decide)⟩

/-! ### C4: per-league failures never abort the aggregation -/

lemma analyzeLeagueForUser_of_rosters_error (userId : String)
    (inp : LeagueFetchResult) (e : String)
    (h : inp.rosters = Except.error e) :
    analyzeLeagueForUser userId inp = none := by
  simp [analyzeLeagueForUser, h]

lemma analyzeLeagueForUser_of_enrich_error (userId : String)
    (inp : LeagueFetchResult) (h : inp.playersFetchOk = false) :
    analyzeLeagueForUser userId inp = none := by
  unfold analyzeLeagueForUser
  cases hr : inp.rosters with
  | error e => simp
  | ok rosters =>
    cases hf : rosters.find? (fun r => r.owner_id = some userId) <;>
      simp [hf, h]

lemma processLeagueMatchup_of_rosters_error (userId : String)
    (inp : LeagueMatchupFetch) (e : String)
    (h : inp.rosters = Except.error e) :
    processLeagueMatchup userId inp = none := by
  unfold processLeagueMatchup
  cases hm : inp.matchups <;> simp [h]

/-- Claim C4: a league whose per-league fetch or enrichment fails is excluded
from `getMultiRosterAnalysis` and `getCrossLeagueMatchups` — the
aggregation over the remaining leagues is exactly the aggregation with the
failed league removed, and both aggregations are total functions (the
per-league catch converts the failure to `null`; no exception escapes). -/
theorem aggregation_excludes_failed_league (userId : String)
    (pre post : List LeagueFetchResult) (bad : LeagueFetchResult)
    (e : String) (hbad : bad.rosters = Except.error e)
    (pre2 post2 : List LeagueMatchupFetch) (bad2 : LeagueMatchupFetch)
    (e2 : String) (hbad2 : bad2.rosters = Except.error e2)
    (bad3 : LeagueFetchResult) (hbad3 : bad3.playersFetchOk = false) :
    getMultiRosterAnalysisCore userId (pre ++ bad :: post) =
      getMultiRosterAnalysisCore userId (pre ++ post) ∧
    getCrossLeagueMatchupsCore userId (pre2 ++ bad2 :: post2) =
      getCrossLeagueMatchupsCore userId (pre2 ++ post2) ∧
    getMultiRosterAnalysisCore userId (pre ++ bad3 :: post) =
      getMultiRosterAnalysisCore userId (pre ++ post) := by
  refine ⟨?_, ?_, ?_⟩
  · simp [getMultiRosterAnalysisCore, List.filterMap_append,
      List.filterMap_cons, analyzeLeagueForUser_of_rosters_error userId bad e hbad]
  · simp [getCrossLeagueMatchupsCore, List.filterMap_append,
      List.filterMap_cons,
      processLeagueMatchup_of_rosters_error userId bad2 e2 hbad2]
  · simp [getMultiRosterAnalysisCore, List.filterMap_append,
      List.filterMap_cons, analyzeLeagueForUser_of_enrich_error userId bad3 hbad3]

/-- Witness for C4: with a single league whose rosters fetch (or player
enrichment) failed, both aggregations return the same result as with no
leagues at all — the empty list, with no error raised. -/
theorem aggregation_excludes_failed_league_witness :
    getMultiRosterAnalysisCore "user1"
      ([] ++ ⟨⟨"L1", "Alpha", "in_season", []⟩, Except.error "boom",
        true, []⟩ :: []) =
      getMultiRosterAnalysisCore "user1" ([] ++ []) ∧
    getCrossLeagueMatchupsCore "user1"
      ([] ++ ⟨⟨"L1", "Alpha", "in_season", []⟩, Except.ok [],
        Except.error "boom"⟩ :: []) =
      getCrossLeagueMatchupsCore "user1" ([] ++ []) ∧
    getMultiRosterAnalysisCore "user1"
      ([] ++ ⟨⟨"L1", "Alpha", "in_season", []⟩, Except.ok [],
        false, []⟩ :: []) =
      getMultiRosterAnalysisCore "user1" ([] ++ []) :=
  aggregation_excludes_failed_league "user1" [] []
    ⟨⟨"L1", "Alpha", "in_season", []⟩, Except.error "boom", true, []⟩
    "boom" rfl [] []
    ⟨⟨"L1", "Alpha", "in_season", []⟩, Except.ok [], Except.error "boom"⟩
    "boom" rfl
    ⟨⟨"L1", "Alpha", "in_season", []⟩, Except.ok [], false, []⟩ rfl

/-! ### C5: enrichment never drops a roster id -/

/-- Claim C5: `enrichPlayers` returns exactly one entry per input roster id (the
output length equals the input length), and every id absent from the
snapshot map yields the explicit placeholder entry with the synthetic
id-derived display name at that same index, rather than being dropped. -/
theorem enrichPlayers_no_silent_drops (playersData : List (String × SleeperPlayer))
    (playerIds starterIds : List String) :
    (enrichPlayers playersData playerIds starterIds).length = playerIds.length ∧
    ∀ i, i < playerIds.length → ∀ pid, playerIds[i]? = some pid →
      alookup playersData pid = none →
      (enrichPlayers playersData playerIds starterIds)[i]? =
        some (placeholderPlayer pid starterIds) := by
  constructor
  · simp [enrichPlayers]
  · intro i hi pid hpid hnone
    simp [enrichPlayers, List.getElem?_map, hpid, hnone]

/-- Witness for C5: an id absent from an empty snapshot map becomes the
placeholder entry (with its `Unknown Player` display name) at its input
position, and the output length matches. -/
theorem enrichPlayers_no_silent_drops_witness :
    (enrichPlayers [] ["9999"] []).length = (["9999"] : List String).length ∧
    (enrichPlayers [] ["9999"] [])[0]? =
      some (placeholderPlayer "9999" []) :=
  ⟨(enrichPlayers_no_silent_drops [] ["9999"] []).1,
   (enrichPlayers_no_silent_drops [] ["9999"] []).2 0 (by decide) "9999"
     rfl rfl⟩

/-! ### C7: matchup classification and priority ordering -/

lemma orderedInsert_skip {α : Type} (r : α → α → Prop) [DecidableRel r]
    (a : α) (L1 L2 : List α) (h : ∀ b ∈ L1, ¬ r a b) :
    (L1 ++ L2).orderedInsert r a = L1 ++ L2.orderedInsert r a := by
  induction L1 with
  | nil => simp
  | cons b rest ih =>
    have hb : ¬ r a b := h b (by simp)
    simp only [List.cons_append, List.orderedInsert, if_neg hb, List.append_eq]
    rw [ih (fun c hc => h c (by simp [hc]))]

lemma orderedInsert_all {α : Type} (r : α → α → Prop) [DecidableRel r]
    (a : α) (L : List α) (h : ∀ b ∈ L, r a b) :
    L.orderedInsert r a = a :: L := by
  cases L with
  | nil => rfl
  | cons b rest => simp [List.orderedInsert, h b (by simp)]

lemma insertionSort_priority123 (l : List CrossLeagueMatchup)
    (h : ∀ x ∈ l, x.priority = 1 ∨ x.priority = 2 ∨ x.priority = 3) :
    stableSortByPriority l =
      l.filter (fun m => m.priority = 1) ++
      l.filter (fun m => m.priority = 2) ++
      l.filter (fun m => m.priority = 3) := by
  induction l with
  | nil => rfl
  | cons a t ih =>
    have ht : ∀ x ∈ t, x.priority = 1 ∨ x.priority = 2 ∨ x.priority = 3 :=
      fun x hx => h x (by simp [hx])
    have hmem1 : ∀ b ∈ t.filter (fun m => m.priority = 1), b.priority = 1 :=
      fun b hb => by simpa using (List.of_mem_filter hb)
    have hmem2 : ∀ b ∈ t.filter (fun m => m.priority = 2), b.priority = 2 :=
      fun b hb => by simpa using (List.of_mem_filter hb)
    have hmem3 : ∀ b ∈ t.filter (fun m => m.priority = 3), b.priority = 3 :=
      fun b hb => by simpa using (List.of_mem_filter hb)
    have hstep : stableSortByPriority (a :: t) =
        (stableSortByPriority t).orderedInsert
          (fun x y => x.priority ≤ y.priority) a := rfl
    rcases h a (by simp) with ha | ha | ha
    · -- priority 1 inserts at the front
      have hall : ∀ b ∈ (t.filter (fun m => m.priority = 1) ++
          (t.filter (fun m => m.priority = 2) ++
            t.filter (fun m => m.priority = 3))), a.priority ≤ b.priority := by
        intro b hb
        rcases List.mem_append.mp hb with hb | hb
        · have := hmem1 b hb; omega
        · rcases List.mem_append.mp hb with hb | hb
          · have := hmem2 b hb; omega
          · have := hmem3 b hb; omega
      rw [hstep, ih ht]
      simp only [List.append_assoc]
      rw [orderedInsert_all _ a _ hall]
      simp [List.filter_cons, ha]
    · -- priority 2 skips past the priority-1 block
      have hskip : ∀ b ∈ t.filter (fun m => m.priority = 1),
          ¬ a.priority ≤ b.priority := by
        intro b hb
        have := hmem1 b hb
        omega
      have hall : ∀ b ∈ (t.filter (fun m => m.priority = 2) ++
          t.filter (fun m => m.priority = 3)), a.priority ≤ b.priority := by
        intro b hb
        rcases List.mem_append.mp hb with hb | hb
        · have := hmem2 b hb; omega
        · have := hmem3 b hb; omega
      rw [hstep, ih ht]
      simp only [List.append_assoc]
      rw [orderedInsert_skip _ a _ _ hskip, orderedInsert_all _ a _ hall]
      simp [List.filter_cons, ha]
    · -- priority 3 skips past the priority-1 and priority-2 blocks
      have hskip : ∀ b ∈ (t.filter (fun m => m.priority = 1) ++
          t.filter (fun m => m.priority = 2)), ¬ a.priority ≤ b.priority := by
        intro b hb
        rcases List.mem_append.mp hb with hb | hb
        · have := hmem1 b hb; omega
        · have := hmem2 b hb; omega
      have hall : ∀ b ∈ t.filter (fun m => m.priority = 3),
          a.priority ≤ b.priority := by
        intro b hb
        have := hmem3 b hb
        omega
      rw [hstep, ih ht]
      rw [show (t.filter (fun m => m.priority = 1) ++
            t.filter (fun m => m.priority = 2) ++
            t.filter (fun m => m.priority = 3)) =
          ((t.filter (fun m => m.priority = 1) ++
            t.filter (fun m => m.priority = 2)) ++
            t.filter (fun m => m.priority = 3)) from by simp,
        orderedInsert_skip _ a _ _ hskip, orderedInsert_all _ a _ hall]
      simp [List.filter_cons, ha]

lemma classifyCompetitiveness_snd (d : ℚ) :
    (classifyCompetitiveness d).2 = 1 ∨ (classifyCompetitiveness d).2 = 2 ∨
      (classifyCompetitiveness d).2 = 3 := by
  unfold classifyCompetitiveness
  split_ifs <;> simp

lemma processLeagueMatchup_priority (userId : String)
    (inp : LeagueMatchupFetch) (x : CrossLeagueMatchup)
    (hx : processLeagueMatchup userId inp = some x) :
    x.priority = 1 ∨ x.priority = 2 ∨ x.priority = 3 := by
  unfold processLeagueMatchup at hx
  split at hx
  · split at hx
    · exact absurd hx (by simp)
    · split at hx
      · exact absurd hx (by simp)
      · split at hx
        · exact absurd hx (by simp)
        · revert hx
          dsimp only
          intro hx
          cases hx
          exact classifyCompetitiveness_snd _
  · exact absurd hx (by simp)

/-- Claim C7: the competitiveness classification is `high` (priority 1) exactly
below an absolute difference of 10, `medium` (priority 2) exactly on
`[10, 20)`, and `low` (priority 3) from 20 up — so 9.9 is high, exactly 10
is medium, and 20 and 25 are low; a league whose matchup has no resolvable
opponent sharing the matchup id (bye) contributes nothing; and the result
list is the valid matchups sorted ascending by priority with equal
priorities keeping their encounter order (the priority-1 block, then the
priority-2 block, then the priority-3 block, each in input order). -/
theorem matchup_classification_and_order :
    (∀ d : ℚ,
      (classifyCompetitiveness d = ("high", 1) ↔ d < 10) ∧
      (classifyCompetitiveness d = ("medium", 2) ↔ 10 ≤ d ∧ d < 20) ∧
      (classifyCompetitiveness d = ("low", 3) ↔ 20 ≤ d)) ∧
    classifyCompetitiveness (99 / 10) = ("high", 1) ∧
    classifyCompetitiveness 10 = ("medium", 2) ∧
    classifyCompetitiveness 20 = ("low", 3) ∧
    classifyCompetitiveness 25 = ("low", 3) ∧
    (∀ (userId : String) (inp : LeagueMatchupFetch) ms rs userRoster userMatchup,
      inp.matchups = Except.ok ms → inp.rosters = Except.ok rs →
      rs.find? (fun r => r.owner_id = some userId) = some userRoster →
      ms.find? (fun m => m.roster_id = userRoster.roster_id) = some userMatchup →
      ms.find? (fun m => m.matchup_id = userMatchup.matchup_id ∧
        m.roster_id ≠ userMatchup.roster_id) = none →
      processLeagueMatchup userId inp = none) ∧
    (∀ (userId : String) (inputs : List LeagueMatchupFetch),
      getCrossLeagueMatchupsCore userId inputs =
        (inputs.filterMap (processLeagueMatchup userId)).filter
          (fun m => m.priority = 1) ++
        (inputs.filterMap (processLeagueMatchup userId)).filter
          (fun m => m.priority = 2) ++
        (inputs.filterMap (processLeagueMatchup userId)).filter
          (fun m => m.priority = 3)) := by
  refine ⟨?_, ?_, ?_, ?_, ?_, ?_, ?_⟩
  · intro d
    unfold classifyCompetitiveness
    split_ifs with h1 h2
    · refine ⟨by simp [h1], ?_, ?_⟩
      · constructor
        · intro hh; simp at hh
        · rintro ⟨h10, _⟩; linarith
      · constructor
        · intro hh; simp at hh
        · intro h20; linarith
    · refine ⟨?_, by simp [not_lt.mp h1, h2], ?_⟩
      · constructor
        · intro hh; simp at hh
        · intro hd; exact absurd hd h1
      · constructor
        · intro hh; simp at hh
        · intro h20; linarith
    · refine ⟨?_, ?_, by simp [not_lt.mp h2]⟩
      · constructor
        · intro hh; simp at hh
        · intro hd; exact absurd hd h1
      · constructor
        · intro hh; simp at hh
        · rintro ⟨_, hd⟩; exact absurd hd h2
  · norm_num [classifyCompetitiveness]
  · norm_num [classifyCompetitiveness]
  · norm_num [classifyCompetitiveness]
  · norm_num [classifyCompetitiveness]
  · intro userId inp ms rs userRoster userMatchup hms hrs hfr hfm hfo
    unfold processLeagueMatchup
    rw [hms, hrs]
    simp only [Bool.decide_and, decide_not] at hfo
    simp [hfr, hfm, hfo]
  · intro userId inputs
    exact insertionSort_priority123 _ (fun x hx => by
      obtain ⟨inp, _, hsome⟩ := List.mem_filterMap.mp hx
      exact processLeagueMatchup_priority userId inp x hsome)

/-- Witness for C7: a league whose only matchup has no opponent entry
sharing its matchup id (a bye) is excluded from the cross-league matchup
results. -/
theorem matchup_classification_and_order_witness :
    processLeagueMatchup "user1"
      ⟨⟨"L1", "League One", "in_season", []⟩,
        Except.ok [⟨7, 1, 0⟩],
        Except.ok [⟨1, some "user1", some [], some [], ⟨0, 0, 0, 0, 0⟩⟩]⟩ =
      none :=
  matchup_classification_and_order.2.2.2.2.2.1 "user1"
    ⟨⟨"L1", "League One", "in_season", []⟩,
      Except.ok [⟨7, 1, 0⟩],
      Except.ok [⟨1, some "user1", some [], some [], ⟨0, 0, 0, 0, 0⟩⟩]⟩
    [⟨7, 1, 0⟩] [⟨1, some "user1", some [], some [], ⟨0, 0, 0, 0, 0⟩⟩]
    ⟨1, some "user1", some [], some [], ⟨0, 0, 0, 0, 0⟩⟩ ⟨7, 1, 0⟩
    rfl rfl (by simp) (by simp) (by simp)

/-! ### C8: waiver priority scoring -/

/-- Claim C8: for every candidate in the waiver pool, the accumulated priority
score equals `trending_add_count * 10` plus 10 per league where the
candidate is unrostered, plus 15 per such league where the user's roster
holds fewer than three players at the candidate's position, plus 5 for a
fully `Active` status, plus the scarcity bonus (3 for RB/WR, 5 for TE, 0
otherwise); candidates unrostered in no league are excluded entirely; and
each per-position result list is sorted descending by score, truncated to
the caller-supplied limit, whose default is 5. -/
theorem waiver_scoring (allPlayers : List (String × SleeperPlayer))
    (trendingMap : List (String × ℕ)) (leagueData : List LeagueRosterData)
    (pool : List SleeperPlayer) (pos : String) (limit : ℕ) :
    (∀ p ∈ pool,
      (mkWaiverTarget allPlayers trendingMap leagueData p).priority_score =
        ((alookup trendingMap p.player_id).getD 0 : ℤ) * 10 +
        ((availableAndRecommended allPlayers leagueData p).1.length : ℤ) * 10 +
        ((availableAndRecommended allPlayers leagueData p).2.length : ℤ) * 15 +
        (if p.status = some "Active" then 5 else 0) +
        scarcityBonus p.position) ∧
    (∀ t ∈ waiverTargets allPlayers trendingMap leagueData pool,
      t.available_in_leagues ≠ []) ∧
    List.Sorted scoreDesc
      (positionGroup (waiverTargets allPlayers trendingMap leagueData pool)
        pos limit) ∧
    (positionGroup (waiverTargets allPlayers trendingMap leagueData pool)
        pos limit).length ≤ limit ∧
    (∀ t ∈ positionGroup (waiverTargets allPlayers trendingMap leagueData pool)
        pos limit,
      t ∈ waiverTargets allPlayers trendingMap leagueData pool ∧
      (t.position = some pos ∨ pos ∈ t.fantasy_positions)) ∧
    WAIVER_DEFAULT_LIMIT = 5 := by
  refine ⟨?_, ?_, ?_, ?_, ?_, rfl⟩
  · intro p _
    simp only [mkWaiverTarget, priorityScoreOf, scarcityBonus]
    by_cases h0 : (alookup trendingMap p.player_id).getD 0 > 0 <;>
      by_cases h1 : p.status = some "Active" <;>
      by_cases h2 : p.position = some "RB" ∨ p.position = some "WR" <;>
      by_cases h3 : p.position = some "TE" <;>
      simp [h0, h1, h2, h3] <;> push_cast <;> omega
  · intro t ht
    have := List.of_mem_filter ht
    simp only [decide_eq_true_eq] at this
    intro hnil
    rw [hnil] at this
    simp at this
  · exact List.Pairwise.sublist (List.take_sublist _ _)
      (List.sorted_insertionSort scoreDesc _)
  · exact List.length_take_le _ _
  · intro t ht
    have hmem := List.mem_of_mem_take ht
    rw [List.mem_insertionSort] at hmem
    have hfil := List.of_mem_filter hmem
    have hmem2 := List.mem_of_mem_filter hmem
    constructor
    · exact hmem2
    · revert hfil
      simp only [Bool.or_eq_true, decide_eq_true_eq]
      rintro (hh | hh)
      · exact Or.inl hh
      · exact Or.inr (List.mem_of_elem_eq_true hh)

/-- Witness for C8: the spec's end-to-end scenario — a TE candidate
trending with 60 adds, unrostered in 2 of 3 leagues, filling a roster need
in 1 of them, with fully active status — scores
`60*10 + 2*10 + 1*15 + 5 + 5 = 645`. -/
theorem waiver_scoring_witness :
    (mkWaiverTarget [] [("7601", 60)]
      [⟨⟨"101", "Alpha", "in_season", []⟩,
          some ⟨1, some "user1", some [], some [], ⟨0, 0, 0, 0, 0⟩⟩, ["x1"]⟩,
       ⟨⟨"102", "Beta", "in_season", []⟩, none, ["x2"]⟩,
       ⟨⟨"103", "Gamma", "in_season", []⟩, none, ["7601"]⟩]
      ⟨"7601", some "Sample Tightend", some "Sample", some "Tightend",
        some "TE", some "KC", some "Active", some ["TE"]⟩).priority_score =
      645 := by
  have h := (waiver_scoring [] [("7601", 60)]
    [⟨⟨"101", "Alpha", "in_season", []⟩,
        some ⟨1, some "user1", some [], some [], ⟨0, 0, 0, 0, 0⟩⟩, ["x1"]⟩,
     ⟨⟨"102", "Beta", "in_season", []⟩, none, ["x2"]⟩,
     ⟨⟨"103", "Gamma", "in_season", []⟩, none, ["7601"]⟩]
    [⟨"7601", some "Sample Tightend", some "Sample", some "Tightend",
      some "TE", some "KC", some "Active", some ["TE"]⟩] "TE" 5).1
    ⟨"7601", some "Sample Tightend", some "Sample", some "Tightend",
      some "TE", some "KC", some "Active", some ["TE"]⟩ (by simp)
  rw [h]
  rfl

/-! ### C10: placeholders are isolated from the six position groups -/

lemma matchesPosition_placeholder (pos : String) (hpos : pos ≠ "FLEX")
    (pid : String) (starterIds : List String) :
    matchesPosition pos (placeholderPlayer pid starterIds) = false := by
  simp [matchesPosition, placeholderPlayer, hpos, Ne.symm hpos]

lemma enrich_filter_resolved (pos : String) (hpos : pos ≠ "FLEX")
    (playersData : List (String × SleeperPlayer))
    (ids starterIds : List String) :
    (enrichPlayers playersData ids starterIds).filter (matchesPosition pos) =
      (enrichPlayers playersData
        (ids.filter (fun pid => (alookup playersData pid).isSome))
        starterIds).filter (matchesPosition pos) := by
  induction ids with
  | nil => rfl
  | cons pid rest ih =>
    cases h : alookup playersData pid with
    | none =>
      simp only [enrichPlayers, List.map_cons, List.filter_cons, h,
        matchesPosition_placeholder pos hpos pid starterIds,
        Option.isSome_none, Bool.false_eq_true, if_false, cond_false]
      simpa [enrichPlayers] using ih
    | some p =>
      simp only [enrichPlayers, List.map_cons, List.filter_cons, h,
        Option.isSome_some, if_true, cond_true]
      cases hm : matchesPosition pos (resolvedPlayer p pid starterIds) <;>
        simpa [enrichPlayers, hm] using ih

lemma analyzePosition_congr (players players' : List EnrichedRosterPlayer)
    (pos : String)
    (h : players.filter (matchesPosition pos) =
      players'.filter (matchesPosition pos)) :
    analyzePosition players pos = analyzePosition players' pos := by
  simp [analyzePosition, h]

/-- Claim C10: every placeholder entry carries position `FLEX` and
fantasy-position list `["FLEX"]`; since `groupPlayersByPosition` groups
only the six fixed positions QB/RB/WR/TE/K/DEF, the whole positional
analysis — the filtered groups with their depth scores, starter and bench
counts, and strength tiers — is identical to the analysis of the resolved
entries alone, while the total enriched roster length still counts the
placeholders (one entry per input id). -/
theorem placeholder_flex_isolation
    (playersData : List (String × SleeperPlayer))
    (ids starterIds rosterPositions : List String) :
    (∀ pid st, (placeholderPlayer pid st).position = "FLEX" ∧
      (placeholderPlayer pid st).fantasy_positions = ["FLEX"]) ∧
    groupPlayersByPosition (enrichPlayers playersData ids starterIds)
        rosterPositions =
      groupPlayersByPosition
        (enrichPlayers playersData
          (ids.filter (fun pid => (alookup playersData pid).isSome))
          starterIds) rosterPositions ∧
    (enrichPlayers playersData ids starterIds).length = ids.length := by
  refine ⟨fun pid st => ⟨rfl, rfl⟩, ?_, by simp [enrichPlayers]⟩
  simp only [groupPlayersByPosition, STANDARD_POSITIONS, List.map_cons,
    List.map_nil]
  refine congrArg₂ _ ?_ (congrArg₂ _ ?_ (congrArg₂ _ ?_ (congrArg₂ _ ?_
    (congrArg₂ _ ?_ (congrArg₂ _ ?_ rfl))))) <;>
    exact analyzePosition_congr _ _ _
      (enrich_filter_resolved _ (by decide) playersData ids starterIds)

end SleeperMCP
